import Mathlib

/-!
Verification development for the glf_scheduler library
(src/arduino/libraries/glf_scheduler/glf_scheduler.cpp and its header).

The embedding targets the Arduino platform branch of the source:
MAX_DIGITAL_PIN = 13, MAX_ANALOG_PIN = 5, MAX_SCHED = 10.

Machine integers are modelled as Nat or Int with explicit wrapping where the
C types can wrap: the per-slot event counters are 16-bit unsigned
(event_ct_up, event_ct_down), debounce_change is an 8-bit unsigned counter,
debounce_ct is a signed 8-bit char, and schedtime/schedms and millis() are
32-bit unsigned longs.

The foreground operations take the current millis() value and the
instantaneous digitalRead levels as explicit parameters, since the core only
assumes a monotone tick source and a way to read a pin.
-/

namespace GlfScheduler

def MAX_DIGITAL_PIN : Nat := 13
def MAX_ANALOG_PIN : Nat := 5
def MAX_SCHED : Nat := 10

def DEBOUNCE_THRESH_UP : Int := 15
def DEBOUNCE_THRESH_DOWN : Int := 5
def DEBOUNCE_THRESH_MAX : Int := 20
def DEBOUNCE_THRESH_BOTTOM : Int := 0

/-- Wrap of an 8-bit signed char value (the debounce_ct field). -/
def wrap8 (x : Int) : Int := ((x + 128) % 256) - 128

/-- Wrap of a 16-bit unsigned int value (the event counters). -/
def wrap16 (n : Nat) : Nat := n % 65536

/-- Wrap of a 32-bit unsigned long value (schedtime, schedms, millis). -/
def wrap32 (n : Nat) : Nat := n % 4294967296

/-- One entry of the schedule table (struct sched in the header).
The id field is the stored unsigned char value; laststate, debounce_state,
active and recurring hold 0/1 values in the source and are modelled as Bool
(LOW = false, HIGH = true). -/
@[ext]
structure Slot where
  id : Nat
  laststate : Bool
  debounce_ct : Int
  debounce_state : Bool
  debounce_change : Nat
  event_ct_up : Nat
  event_ct_down : Nat
  active : Bool
  recurring : Bool
  schedtime : Nat
  schedms : Nat
deriving Repr, DecidableEq

def initSlot : Slot :=
  { id := 0, laststate := false, debounce_ct := 0, debounce_state := false,
    debounce_change := 0, event_ct_up := 0, event_ct_down := 0,
    active := false, recurring := false, schedtime := 0, schedms := 0 }

/-- The scheduler table state: the static array schedlist (modelled as a
function from index to slot; the source only ever accesses indices 0..10,
within the declared bound MAX_SCHED+1) and the static counter sched_count. -/
@[ext]
structure SchedState where
  schedlist : Nat → Slot
  sched_count : Nat

/-- Pointwise update of position i of the slot array. -/
def upd (f : Nat → Slot) (i : Nat) (g : Slot → Slot) : Nat → Slot :=
  fun j => if j = i then g (f i) else f j

/-- The state produced by sched_list_init: every slot zeroed, count zero.
(The analog side of init is modelled separately below.) -/
def sched_list_init_state : SchedState :=
  { schedlist := fun _ => initSlot, sched_count := 0 }

/-- The id-search loop shared by sched_event, sched_check, sched_pin_gohigh,
sched_pin_golow, sched_pin_level and sched_pin_event_count: scan positions
0..count-1 for a slot whose id equals ident, keeping the LAST match (the C
loop overwrites pos on every match).  Formulated as a downward recursion:
the last match below c is the first match scanning from c-1 down. -/
def sched_find (l : Nat → Slot) (c : Nat) (ident : Nat) : Option Nat :=
  match c with
  | 0 => none
  | c + 1 => if (l c).id = ident then some c else sched_find l c ident

/-- sched_event (lines 228-294 of the source).  Returns the C return value
(1 = success) and the updated state.
The two assignments at lines 278-279 and 284-285 of the source index the
array with the loop variable i (which equals the pre-call sched_count after
the search loop) instead of pos; the embedding reproduces this exactly via
iAfter. -/
def sched_event (st : SchedState) (timems : Nat) (pinRead : Nat → Bool)
    (ident : Nat) (recur : Bool) (ms : Nat) : Bool × SchedState :=
  let iAfter := st.sched_count
  let found :=
    match sched_find st.schedlist st.sched_count ident with
    | some p => (some p, st.sched_count)
    | none =>
      if st.sched_count < MAX_SCHED then
        (some st.sched_count, st.sched_count + 1)
      else (none, st.sched_count)
  match found.1 with
  | none => (false, st)
  | some pos =>
    let s0 := st.schedlist pos
    let s1 : Slot :=
      { s0 with
        id := ident, schedtime := wrap32 (ms + timems), schedms := ms,
        recurring := recur, event_ct_up := 0, event_ct_down := 0,
        active := if recur = false ∧ ms = 0 then false else true }
    if s1.id ≤ MAX_DIGITAL_PIN then
      let ls := pinRead s1.id
      let s2 : Slot :=
        { s1 with
          laststate := ls,
          debounce_ct := if ls then DEBOUNCE_THRESH_MAX else DEBOUNCE_THRESH_BOTTOM }
      let l1 := upd st.schedlist pos (fun _ => s2)
      let l2 := upd l1 iAfter
        (fun u => { u with debounce_change := 0, debounce_state := ls })
      (true, { schedlist := l2, sched_count := found.2 })
    else
      (true, { schedlist := upd st.schedlist pos (fun _ => s1),
               sched_count := found.2 })

/-- sched_cancel (lines 301-304): sched_event(ident, 0, 0L). -/
def sched_cancel (st : SchedState) (timems : Nat) (pinRead : Nat → Bool)
    (ident : Nat) : Bool × SchedState :=
  sched_event st timems pinRead ident false 0

/-- The HIGH branch of the debounce logic in sched_check0
(lines 345-371): all writes target the slot at pos, so it is expressed as a
pure slot transformer. -/
def debounceHighStep (s : Slot) (debounce : Bool) : Slot :=
  let s1 :=
    if debounce = false then { s with debounce_ct := DEBOUNCE_THRESH_MAX }
    else { s with debounce_ct := wrap8 (s.debounce_ct + 1) }
  if s1.debounce_ct > DEBOUNCE_THRESH_UP then
    let s2 := { s1 with debounce_ct := DEBOUNCE_THRESH_MAX }
    let s3 :=
      if s2.debounce_state = false then
        { s2 with
          debounce_change := (s2.debounce_change + 1) % 256,
          event_ct_up := wrap16 (s2.event_ct_up + 1) }
      else s2
    { s3 with debounce_state := true }
  else s1

/-- The LOW branch of the debounce logic in sched_check0 (lines 372-399). -/
def debounceLowStep (s : Slot) (debounce : Bool) : Slot :=
  let s1 :=
    if debounce = false then { s with debounce_ct := DEBOUNCE_THRESH_BOTTOM }
    else { s with debounce_ct := wrap8 (s.debounce_ct - 1) }
  if s1.debounce_ct < DEBOUNCE_THRESH_DOWN then
    let s2 := { s1 with debounce_ct := DEBOUNCE_THRESH_BOTTOM }
    let s3 :=
      if s2.debounce_state = true then
        { s2 with
          debounce_change := (s2.debounce_change + 1) % 256,
          event_ct_down := wrap16 (s2.event_ct_down + 1) }
      else s2
    { s3 with debounce_state := false }
  else s1

/-- The body of sched_check0 once the slot at pos is known to be active and
due (lines 320-399): rearm or deactivate, then run one debounce cycle if the
slot watches a pin.  Every write of that stretch of code targets the slot at
pos, so it is a pure slot transformer. -/
def checkSlotStep (s : Slot) (pinRead : Nat → Bool) : Slot :=
  let step1 : Slot × Bool :=
    if s.recurring = true then
      let sa := { s with schedtime := wrap32 (s.schedtime + s.schedms) }
      if sa.schedms = 0 then
        ({ sa with schedtime := wrap32 (sa.schedtime + 1) }, false)
      else (sa, true)
    else ({ s with active := false }, true)
  let s1 := step1.1
  let debounce := step1.2
  if s1.id ≤ MAX_DIGITAL_PIN then
    let ls := pinRead s1.id
    let sb := { s1 with laststate := ls }
    if ls = true then debounceHighStep sb debounce
    else debounceLowStep sb debounce
  else s1

/-- sched_check0 (lines 307-408): the per-slot expiry check, rearm, and
debounce cycle.  The guard pos < 0 of the source cannot arise with a Nat
index; pos >= sched_count is kept. -/
def sched_check0 (st : SchedState) (timems : Nat) (pinRead : Nat → Bool)
    (pos : Nat) : Bool × SchedState :=
  if pos ≥ st.sched_count then (false, st)
  else
    let s := st.schedlist pos
    if s.active = true then
      if s.schedtime ≤ timems then
        (true, { st with
                 schedlist := upd st.schedlist pos
                   (fun _ => checkSlotStep s pinRead) })
      else (false, st)
    else (false, st)

/-- sched_check (lines 470-492): find the id, then sched_check0. -/
def sched_check (st : SchedState) (timems : Nat) (pinRead : Nat → Bool)
    (ident : Nat) : Bool × SchedState :=
  match sched_find st.schedlist st.sched_count ident with
  | none => (false, st)
  | some pos => sched_check0 st timems pinRead pos

/-- sched_pin_test0 (lines 411-453): reads and clears debounce_change, then
reports either the raw debounced level (delta = false) or whether a change
matching the requested level occurred. -/
def sched_pin_test0 (st : SchedState) (pos : Nat) (level delta : Bool) :
    Bool × SchedState :=
  if pos ≥ st.sched_count then (false, st)
  else
    let s := st.schedlist pos
    if s.active = true then
      let changes := s.debounce_change
      let st1 : SchedState :=
        { st with
          schedlist :=
            upd st.schedlist pos (fun u => { u with debounce_change := 0 }) }
      if delta = false then ((st1.schedlist pos).debounce_state, st1)
      else if changes ≠ 0 then
        if level = true then
          if s.debounce_state = true then (true, st1) else (false, st1)
        else
          if s.debounce_state = false then (true, st1) else (false, st1)
      else (false, st1)
    else (false, st)

/-- sched_pin_gohigh (lines 576-598). -/
def sched_pin_gohigh (st : SchedState) (ident : Nat) : Bool × SchedState :=
  match sched_find st.schedlist st.sched_count ident with
  | none => (false, st)
  | some pos => sched_pin_test0 st pos true true

/-- sched_pin_golow (lines 601-623). -/
def sched_pin_golow (st : SchedState) (ident : Nat) : Bool × SchedState :=
  match sched_find st.schedlist st.sched_count ident with
  | none => (false, st)
  | some pos => sched_pin_test0 st pos false true

/-- sched_pin_level (lines 626-648): sched_pin_test0 with delta = 0. -/
def sched_pin_level (st : SchedState) (ident : Nat) (level : Bool) :
    Bool × SchedState :=
  match sched_find st.schedlist st.sched_count ident with
  | none => (false, st)
  | some pos => sched_pin_test0 st pos level false

/-- sched_pin_event_count (lines 495-573) executed with no interrupt
interleaved (the sequential foreground view): the do-while stabilization
loops exit after one iteration and the reset comparisons see unchanged
counters.  The local holdup/holddown of the source are each assigned in only
one branch of the level test, so the OTHER one is read uninitialized by the
reset code; the garbage values are passed in as hup0/hdown0. -/
def sched_pin_event_count_seq (st : SchedState) (ident : Nat)
    (level reset : Bool) (hup0 hdown0 : Nat) : Nat × SchedState :=
  match sched_find st.schedlist st.sched_count ident with
  | none => (0, st)
  | some pos =>
    let s := st.schedlist pos
    let holdup := if level = true then s.event_ct_up else hup0
    let holddown := if level = true then hdown0 else s.event_ct_down
    let val := if level = true then s.event_ct_up else s.event_ct_down
    if reset = true then
      let l1 := upd st.schedlist pos (fun t =>
        { t with event_ct_up := if t.event_ct_up ≠ holdup then 1 else 0 })
      let l2 := upd l1 pos (fun t =>
        { t with event_ct_down := if t.event_ct_down ≠ holddown then 1 else 0 })
      (val, { st with schedlist := l2 })
    else (val, st)

/-- sched_analogread (lines 456-467).  The buffer sched_analoglist has
MAX_ANALOG_PIN + 1 = 6 cells; the guard is the strict comparison
pin > sched_num_analogs of the source, so pin = num is NOT rejected.  When
num = 6 the access at pin = 6 reads past the array; the value of that
out-of-bounds cell is modelled by the junk parameter. -/
def sched_analogread (num : Nat) (buf : List Nat) (junk : Nat) (pin : Nat) :
    Nat :=
  if pin > num then 0
  else if h : pin < buf.length then buf.get ⟨pin, h⟩ else junk

/-- The analog part of sched_list_init (lines 140-152): clamp the requested
channel count to MAX_ANALOG_PIN + 1 and zero the 6-cell buffer.
Returns (sched_num_analogs, sched_analoglist). -/
def sched_analog_init (num_analogs_toscan : Nat) : Nat × List Nat :=
  (if num_analogs_toscan > MAX_ANALOG_PIN + 1 then MAX_ANALOG_PIN + 1
   else num_analogs_toscan,
   List.replicate (MAX_ANALOG_PIN + 1) 0)

/-- The analog part of one ISR tick (lines 704-789): store the harvested
sample at the current ring index and advance the index modulo the scan
count.  Returns the new (current index, buffer). -/
def sched_analog_tick (num cur : Nat) (buf : List Nat) (sample : Nat) :
    Nat × List Nat :=
  if num ≠ 0 then
    let buf1 := buf.set cur sample
    let cur1 := cur + 1
    (if cur1 ≥ num then 0 else cur1, buf1)
  else (cur, buf)

/-- Invariant linking the analog scan count and the sample buffer: the buffer
is the 6-cell sched_analoglist and every cell at or beyond the scan count is
zero (the ring writer only touches indices below the count and init zeroes
the whole array). -/
def AnalogInv (num : Nat) (buf : List Nat) : Prop :=
  buf.length = MAX_ANALOG_PIN + 1 ∧
  ∀ j, num ≤ j → j < buf.length → buf.get? j = some 0

/-!
Interleaved model of the rising-counter reset race in sched_pin_event_count
(lines 528-559).  The foreground call with level = rising and reset = true
performs, on the volatile 16-bit cell event_ct_up, the atomic accesses

  A (read into holdup), B (re-read for the do-while stability test,
  repeating A/B until the two agree), C (re-read by the reset code for the
  comparison with holdup), D (the reset store of 1 or 0).

The millisecond ISR can increment the same cell at most once during the call
(the source comment argues the call is much faster than 1 ms).  The model
carries the cell value together with a countdown: the single interrupt
increment fires at the k-th access boundary, so k = 0 injects before A,
k = 1 between A and B, k = 2 between the stable re-read and C, k = 3 between
C and the store D, and larger k never fires during the call. -/

structure RaceCell where
  cell : Nat
  fire : Option Nat
deriving Repr, DecidableEq

/-- One access boundary: the pending ISR increment fires when its countdown
reaches zero, otherwise the countdown decreases. -/
def raceInj (e : RaceCell) : RaceCell :=
  match e.fire with
  | some 0 => { cell := wrap16 (e.cell + 1), fire := none }
  | some (n + 1) => { cell := e.cell, fire := some n }
  | none => e

/-- The do-while stabilization loop of sched_pin_event_count (lines 531-536)
for the rising counter: read holdup, re-read, repeat while they differ.
With at most one interrupt increment, fuel 3 is more than enough. -/
def raceLoop : Nat → RaceCell → Nat × RaceCell
  | 0, e => (e.cell, e)
  | fuel + 1, e =>
    let e1 := raceInj e
    let holdup := e1.cell
    let e2 := raceInj e1
    if e2.cell = holdup then (holdup, e2) else raceLoop fuel e2

/-- sched_pin_event_count with level = rising and reset = true, restricted
to its accesses of the rising counter cell, under a single ISR increment
injected at access boundary k.  Starts from counter value c.  Returns
(the value the call returns, the final content of the rising counter). -/
def eventCountRaceUp (c k : Nat) : Nat × Nat :=
  let r := raceLoop 3 { cell := c, fire := some k }
  let holdup := r.1
  let e3 := raceInj r.2
  let cmp := e3.cell
  let e4 := raceInj e3
  let newv : Nat := if cmp ≠ holdup then 1 else 0
  let e5 : RaceCell := { cell := newv, fire := e4.fire }
  (holdup, e5.cell)

/-!
Concrete states used by the witnesses and counterexamples below.
-/

/-- A one-slot table: a registered pin-watch id 3 with a confirmed HIGH
level, five rising and two falling confirmed edges, armed recurring. -/
def stPin3 : SchedState :=
  { schedlist := fun j =>
      if j = 0 then
        { id := 3, laststate := true, debounce_ct := 20, debounce_state := true,
          debounce_change := 0, event_ct_up := 5, event_ct_down := 2,
          active := true, recurring := true, schedtime := 5, schedms := 1 }
      else initSlot,
    sched_count := 1 }

/-- A one-slot table: pin-watch id 4 with a pending unread rising change. -/
def stPin4 : SchedState :=
  { schedlist := fun j =>
      if j = 0 then
        { id := 4, laststate := true, debounce_ct := 20, debounce_state := true,
          debounce_change := 1, event_ct_up := 1, event_ct_down := 0,
          active := true, recurring := true, schedtime := 5, schedms := 1 }
      else initSlot,
    sched_count := 1 }

/-- A one-slot table holding a manual recurring timer id 20, period 1000,
due at tick 1000. -/
def stTimer20 : SchedState :=
  { schedlist := fun j =>
      if j = 0 then
        { id := 20, laststate := false, debounce_ct := 0, debounce_state := false,
          debounce_change := 0, event_ct_up := 0, event_ct_down := 0,
          active := true, recurring := true, schedtime := 1000, schedms := 1000 }
      else initSlot,
    sched_count := 1 }

/-- A one-slot table: zero-period recurring pin-watch id 2 (debounce off),
confirmed LOW, due at tick 5, change flag clear. -/
def stZeroPeriod : SchedState :=
  { schedlist := fun j =>
      if j = 0 then
        { id := 2, laststate := false, debounce_ct := 0, debounce_state := false,
          debounce_change := 0, event_ct_up := 0, event_ct_down := 0,
          active := true, recurring := true, schedtime := 5, schedms := 0 }
      else initSlot,
    sched_count := 1 }

/-- A full table: ten slots with ids 20..29, so sched_count = MAX_SCHED. -/
def stFull : SchedState :=
  { schedlist := fun j => { initSlot with id := 20 + j }, sched_count := 10 }

/-- A one-slot table: pin-watch id 3 whose rising counter holds exactly 1
(the state left behind by a reset that absorbed a racing edge). -/
def stPin3One : SchedState :=
  { schedlist := fun j =>
      if j = 0 then
        { id := 3, laststate := true, debounce_ct := 20, debounce_state := true,
          debounce_change := 0, event_ct_up := 1, event_ct_down := 0,
          active := true, recurring := true, schedtime := 5, schedms := 1 }
      else initSlot,
    sched_count := 1 }

/-- A one-slot table: pin-watch id 3 whose rising counter holds 0 (the
state left behind by a reset that overwrote a racing edge with 0). -/
def stPin3Zero : SchedState :=
  { schedlist := fun j =>
      if j = 0 then
        { id := 3, laststate := true, debounce_ct := 20, debounce_state := true,
          debounce_change := 0, event_ct_up := 0, event_ct_down := 0,
          active := true, recurring := true, schedtime := 5, schedms := 1 }
      else initSlot,
    sched_count := 1 }

/-- A one-slot table holding a non-recurring manual timer id 30, period 200,
due at tick 200. -/
def stOnce30 : SchedState :=
  { schedlist := fun j =>
      if j = 0 then
        { id := 30, laststate := false, debounce_ct := 0, debounce_state := false,
          debounce_change := 0, event_ct_up := 0, event_ct_down := 0,
          active := true, recurring := false, schedtime := 200, schedms := 200 }
      else initSlot,
    sched_count := 1 }

/-!
The recurring-timer cadence scenario of the spec: arm id 7 recurring with
period 1000 at tick 0, then poll once per millisecond while the tick source
advances to 3500.  c6run n is (the list of tick values at which poll
returned true among the first n polls, the table state after them); the
n-th poll happens at tick value n.
-/

def c6pr : Nat → Bool := fun _ => false

/-- The shape of the scenario slot: only schedtime varies over the run. -/
def c6Slot (s : Nat) : Slot :=
  { id := 7, laststate := false, debounce_ct := 0, debounce_state := false,
    debounce_change := 0, event_ct_up := 0, event_ct_down := 0,
    active := true, recurring := true, schedtime := s, schedms := 1000 }

/-- The shape of the scenario state. -/
def c6State (s : Nat) : SchedState :=
  { schedlist := fun j => if j = 0 then c6Slot s else initSlot,
    sched_count := 1 }

/-- Poll id 7 at every millisecond tick 1, 2, ..., n after arming at tick 0. -/
def c6run : Nat → List Nat × SchedState
  | 0 => ([], (sched_event sched_list_init_state 0 c6pr 7 true 1000).2)
  | n + 1 =>
    let prev := c6run n
    let r := sched_check prev.2 (n + 1) c6pr 7
    (if r.1 then prev.1 ++ [n + 1] else prev.1, r.2)

/-!
States for the re-registration snapshot bug of sched_event (claim C4):
pin 3 is armed while instantaneously LOW, the pin then goes HIGH, and the
same id is re-registered. -/

def c4StArmedLow : SchedState :=
  (sched_event sched_list_init_state 0 (fun _ => false) 3 true 1).2

def c4StRearmedHigh : SchedState :=
  (sched_event c4StArmedLow 5 (fun _ => true) 3 true 1).2

/-!
Helper lemmas.
-/

theorem upd_same (f : Nat → Slot) (i : Nat) (g : Slot → Slot) :
    upd f i g i = g (f i) := by simp [upd]

theorem upd_other (f : Nat → Slot) (i : Nat) (g : Slot → Slot) (j : Nat)
    (h : j ≠ i) : upd f i g j = f j := by simp [upd, h]

theorem sched_find_lt (l : Nat → Slot) (c ident p : Nat)
    (h : sched_find l c ident = some p) : p < c := by
  induction c with
  | zero => simp [sched_find] at h
  | succ c ih =>
    rw [sched_find] at h
    by_cases hid : (l c).id = ident
    · simp [hid] at h
      omega
    · simp [hid] at h
      exact Nat.lt_succ_of_lt (ih h)

theorem sched_find_id (l : Nat → Slot) (c ident p : Nat)
    (h : sched_find l c ident = some p) : (l p).id = ident := by
  induction c with
  | zero => simp [sched_find] at h
  | succ c ih =>
    rw [sched_find] at h
    by_cases hid : (l c).id = ident
    · simp [hid] at h
      exact h ▸ hid
    · simp [hid] at h
      exact ih h

theorem sched_find_congr (l1 l2 : Nat → Slot) (c ident : Nat)
    (h : ∀ i, i < c → (l2 i).id = (l1 i).id) :
    sched_find l2 c ident = sched_find l1 c ident := by
  induction c with
  | zero => rfl
  | succ c ih =>
    rw [sched_find, sched_find, h c (Nat.lt_succ_self c)]
    rw [ih (fun i hi => h i (Nat.lt_succ_of_lt hi))]

theorem debounceHighStep_frame (s : Slot) (d : Bool) :
    (debounceHighStep s d).id = s.id ∧
    (debounceHighStep s d).active = s.active ∧
    (debounceHighStep s d).recurring = s.recurring ∧
    (debounceHighStep s d).schedtime = s.schedtime ∧
    (debounceHighStep s d).schedms = s.schedms ∧
    (debounceHighStep s d).laststate = s.laststate := by
  simp only [debounceHighStep]
  split <;> split <;> (try split) <;> simp

theorem sched_event_found (st : SchedState) (t : Nat) (pr : Nat → Bool)
    (ident : Nat) (recur : Bool) (ms : Nat) (pos : Nat)
    (hfind : sched_find st.schedlist st.sched_count ident = some pos) :
    (sched_event st t pr ident recur ms).1 = true ∧
    (sched_event st t pr ident recur ms).2.sched_count = st.sched_count ∧
    (∀ j, ((sched_event st t pr ident recur ms).2.schedlist j).id =
      (st.schedlist j).id) ∧
    ((sched_event st t pr ident recur ms).2.schedlist pos).active =
      (if recur = false ∧ ms = 0 then false else true) ∧
    ((sched_event st t pr ident recur ms).2.schedlist pos).event_ct_up = 0 ∧
    ((sched_event st t pr ident recur ms).2.schedlist pos).event_ct_down = 0 ∧
    ((sched_event st t pr ident recur ms).2.schedlist pos).schedtime =
      wrap32 (ms + t) ∧
    ((sched_event st t pr ident recur ms).2.schedlist pos).schedms = ms ∧
    ((sched_event st t pr ident recur ms).2.schedlist pos).recurring = recur ∧
    ((sched_event st t pr ident recur ms).2.schedlist pos).debounce_state =
      (st.schedlist pos).debounce_state ∧
    ((sched_event st t pr ident recur ms).2.schedlist pos).debounce_change =
      (st.schedlist pos).debounce_change := by
  have hlt : pos < st.sched_count := sched_find_lt _ _ _ _ hfind
  have hne : pos ≠ st.sched_count := Nat.ne_of_lt hlt
  have hid : (st.schedlist pos).id = ident := sched_find_id _ _ _ _ hfind
  simp only [sched_event, hfind]
  by_cases hpin : ident ≤ MAX_DIGITAL_PIN
  · simp only [hpin, if_true, ite_true]
    refine ⟨trivial, trivial, ?_, ?_, ?_, ?_, ?_, ?_, ?_, ?_, ?_⟩
    · intro j
      by_cases hj : j = st.sched_count
      · subst hj
        rw [upd_same, upd_other _ _ _ _ hne.symm]
      · rw [upd_other _ _ _ _ hj]
        by_cases hjp : j = pos
        · subst hjp
          rw [upd_same]
          exact hid.symm
        · rw [upd_other _ _ _ _ hjp]
    all_goals rw [upd_other _ _ _ _ hne, upd_same]
  · simp only [hpin, if_false, ite_false]
    refine ⟨trivial, trivial, ?_, ?_, ?_, ?_, ?_, ?_, ?_, ?_, ?_⟩
    · intro j
      by_cases hjp : j = pos
      · subst hjp
        rw [upd_same]
        exact hid.symm
      · rw [upd_other _ _ _ _ hjp]
    all_goals rw [upd_same]

theorem debounceLowStep_frame (s : Slot) (d : Bool) :
    (debounceLowStep s d).id = s.id ∧
    (debounceLowStep s d).active = s.active ∧
    (debounceLowStep s d).recurring = s.recurring ∧
    (debounceLowStep s d).schedtime = s.schedtime ∧
    (debounceLowStep s d).schedms = s.schedms ∧
    (debounceLowStep s d).laststate = s.laststate := by
  simp only [debounceLowStep]
  split <;> split <;> (try split) <;> simp

theorem sched_check_none (st : SchedState) (t : Nat) (pr : Nat → Bool)
    (ident : Nat)
    (hfind : sched_find st.schedlist st.sched_count ident = none) :
    sched_check st t pr ident = (false, st) := by
  simp [sched_check, hfind]

theorem sched_check_some (st : SchedState) (t : Nat) (pr : Nat → Bool)
    (ident pos : Nat)
    (hfind : sched_find st.schedlist st.sched_count ident = some pos) :
    sched_check st t pr ident = sched_check0 st t pr pos := by
  simp [sched_check, hfind]

theorem debounceHighStep_id (s : Slot) (d : Bool) :
    (debounceHighStep s d).id = s.id := (debounceHighStep_frame s d).1

theorem debounceHighStep_active (s : Slot) (d : Bool) :
    (debounceHighStep s d).active = s.active := (debounceHighStep_frame s d).2.1

theorem debounceHighStep_recurring (s : Slot) (d : Bool) :
    (debounceHighStep s d).recurring = s.recurring :=
  (debounceHighStep_frame s d).2.2.1

theorem debounceHighStep_schedtime (s : Slot) (d : Bool) :
    (debounceHighStep s d).schedtime = s.schedtime :=
  (debounceHighStep_frame s d).2.2.2.1

theorem debounceHighStep_schedms (s : Slot) (d : Bool) :
    (debounceHighStep s d).schedms = s.schedms :=
  (debounceHighStep_frame s d).2.2.2.2.1

theorem debounceLowStep_id (s : Slot) (d : Bool) :
    (debounceLowStep s d).id = s.id := (debounceLowStep_frame s d).1

theorem debounceLowStep_active (s : Slot) (d : Bool) :
    (debounceLowStep s d).active = s.active := (debounceLowStep_frame s d).2.1

theorem debounceLowStep_recurring (s : Slot) (d : Bool) :
    (debounceLowStep s d).recurring = s.recurring :=
  (debounceLowStep_frame s d).2.2.1

theorem debounceLowStep_schedtime (s : Slot) (d : Bool) :
    (debounceLowStep s d).schedtime = s.schedtime :=
  (debounceLowStep_frame s d).2.2.2.1

theorem debounceLowStep_schedms (s : Slot) (d : Bool) :
    (debounceLowStep s d).schedms = s.schedms :=
  (debounceLowStep_frame s d).2.2.2.2.1

theorem checkSlotStep_id (s : Slot) (pr : Nat → Bool) :
    (checkSlotStep s pr).id = s.id := by
  simp only [checkSlotStep]
  split_ifs <;> simp [debounceHighStep_id, debounceLowStep_id]

theorem checkSlotStep_rec (s : Slot) (pr : Nat → Bool)
    (hrec : s.recurring = true) (hms : s.schedms ≠ 0) :
    (checkSlotStep s pr).schedtime = wrap32 (s.schedtime + s.schedms) ∧
    (checkSlotStep s pr).schedms = s.schedms ∧
    (checkSlotStep s pr).active = s.active ∧
    (checkSlotStep s pr).recurring = s.recurring := by
  simp only [checkSlotStep, hrec, if_true, ite_true, hms, if_neg, ite_false]
  split
  · split
    · rw [debounceHighStep_schedtime, debounceHighStep_schedms,
        debounceHighStep_active, debounceHighStep_recurring]
      exact ⟨rfl, rfl, rfl, rfl⟩
    · rw [debounceLowStep_schedtime, debounceLowStep_schedms,
        debounceLowStep_active, debounceLowStep_recurring]
      exact ⟨rfl, rfl, rfl, rfl⟩
  · exact ⟨rfl, rfl, rfl, rfl⟩

theorem checkSlotStep_nonrec (s : Slot) (pr : Nat → Bool)
    (hrec : s.recurring = false) :
    (checkSlotStep s pr).active = false := by
  simp only [checkSlotStep, hrec, Bool.false_eq_true, if_false, ite_false]
  split
  · split
    · rw [debounceHighStep_active]
    · rw [debounceLowStep_active]
  · rfl

theorem sched_check0_inactive (st : SchedState) (t : Nat) (pr : Nat → Bool)
    (pos : Nat) (hact : (st.schedlist pos).active = false) :
    sched_check0 st t pr pos = (false, st) := by
  rw [sched_check0]
  split
  · rfl
  · simp [hact]

theorem sched_check0_notdue (st : SchedState) (t : Nat) (pr : Nat → Bool)
    (pos : Nat) (hdue : t < (st.schedlist pos).schedtime) :
    sched_check0 st t pr pos = (false, st) := by
  rw [sched_check0]
  split
  · rfl
  · simp [show ¬ ((st.schedlist pos).schedtime ≤ t) from by omega]

theorem sched_check0_due_recurring (st : SchedState) (t : Nat)
    (pr : Nat → Bool) (pos : Nat)
    (hpos : pos < st.sched_count)
    (hact : (st.schedlist pos).active = true)
    (hrec : (st.schedlist pos).recurring = true)
    (hms : (st.schedlist pos).schedms ≠ 0)
    (hdue : (st.schedlist pos).schedtime ≤ t) :
    (sched_check0 st t pr pos).1 = true ∧
    (sched_check0 st t pr pos).2.sched_count = st.sched_count ∧
    (∀ j, j ≠ pos → (sched_check0 st t pr pos).2.schedlist j =
      st.schedlist j) ∧
    (∀ j, ((sched_check0 st t pr pos).2.schedlist j).id =
      (st.schedlist j).id) ∧
    ((sched_check0 st t pr pos).2.schedlist pos).schedtime =
      wrap32 ((st.schedlist pos).schedtime + (st.schedlist pos).schedms) ∧
    ((sched_check0 st t pr pos).2.schedlist pos).schedms =
      (st.schedlist pos).schedms ∧
    ((sched_check0 st t pr pos).2.schedlist pos).active = true ∧
    ((sched_check0 st t pr pos).2.schedlist pos).recurring = true := by
  obtain ⟨k1, k2, k3, k4⟩ := checkSlotStep_rec (st.schedlist pos) pr hrec hms
  simp only [sched_check0, if_neg (show ¬ pos ≥ st.sched_count from by omega),
    hact, if_pos hdue, if_true, ite_true]
  refine ⟨trivial, trivial, fun j hj => upd_other _ _ _ _ hj, ?_,
    ?_, ?_, ?_, ?_⟩
  · intro j
    by_cases hjp : j = pos
    · subst hjp
      rw [upd_same, checkSlotStep_id]
    · rw [upd_other _ _ _ _ hjp]
  all_goals rw [upd_same]
  · exact k1
  · exact k2
  · rw [k3, hact]
  · rw [k4, hrec]

theorem sched_pin_test0_inactive (st : SchedState) (pos : Nat)
    (level delta : Bool)
    (hact : (st.schedlist pos).active = false) :
    sched_pin_test0 st pos level delta = (false, st) := by
  rw [sched_pin_test0]
  split
  · rfl
  · simp [hact]

theorem sched_pin_test0_level (st : SchedState) (pos : Nat) (level : Bool)
    (hpos : pos < st.sched_count)
    (hact : (st.schedlist pos).active = true) :
    sched_pin_test0 st pos level false =
      ((st.schedlist pos).debounce_state,
       { st with
         schedlist :=
           upd st.schedlist pos (fun u => { u with debounce_change := 0 }) }) := by
  simp only [sched_pin_test0, if_neg (show ¬ pos ≥ st.sched_count from by omega),
    hact, if_true, ite_true, if_neg, ite_false]
  rw [upd_same]

theorem sched_pin_test0_delta (st : SchedState) (pos : Nat) (level : Bool)
    (hpos : pos < st.sched_count)
    (hact : (st.schedlist pos).active = true) :
    sched_pin_test0 st pos level true =
      (if (st.schedlist pos).debounce_change ≠ 0 ∧
          (st.schedlist pos).debounce_state = level then true else false,
       { st with
         schedlist :=
           upd st.schedlist pos (fun u => { u with debounce_change := 0 }) }) := by
  simp only [sched_pin_test0, if_neg (show ¬ pos ≥ st.sched_count from by omega),
    hact, if_true, ite_true, Bool.true_eq_false, if_false, ite_false]
  by_cases hch : (st.schedlist pos).debounce_change ≠ 0
  · rw [if_pos hch]
    cases level with
    | true =>
      cases hst : (st.schedlist pos).debounce_state <;> simp [hst, hch]
    | false =>
      cases hst : (st.schedlist pos).debounce_state <;> simp [hst, hch]
  · rw [if_neg hch]
    simp only [not_not] at hch
    simp [hch]

theorem sched_pin_gohigh_some (st : SchedState) (ident pos : Nat)
    (hfind : sched_find st.schedlist st.sched_count ident = some pos) :
    sched_pin_gohigh st ident = sched_pin_test0 st pos true true := by
  simp [sched_pin_gohigh, hfind]

theorem sched_pin_golow_some (st : SchedState) (ident pos : Nat)
    (hfind : sched_find st.schedlist st.sched_count ident = some pos) :
    sched_pin_golow st ident = sched_pin_test0 st pos false true := by
  simp [sched_pin_golow, hfind]

theorem sched_pin_level_some (st : SchedState) (ident pos : Nat) (level : Bool)
    (hfind : sched_find st.schedlist st.sched_count ident = some pos) :
    sched_pin_level st ident level = sched_pin_test0 st pos level false := by
  simp [sched_pin_level, hfind]

theorem sched_pin_level_none (st : SchedState) (ident : Nat) (level : Bool)
    (hfind : sched_find st.schedlist st.sched_count ident = none) :
    sched_pin_level st ident level = (false, st) := by
  simp [sched_pin_level, hfind]

theorem sched_check0_due_nonrecurring (st : SchedState) (t : Nat)
    (pr : Nat → Bool) (pos : Nat)
    (hpos : pos < st.sched_count)
    (hact : (st.schedlist pos).active = true)
    (hrec : (st.schedlist pos).recurring = false)
    (hdue : (st.schedlist pos).schedtime ≤ t) :
    (sched_check0 st t pr pos).1 = true ∧
    (sched_check0 st t pr pos).2.sched_count = st.sched_count ∧
    (∀ j, ((sched_check0 st t pr pos).2.schedlist j).id =
      (st.schedlist j).id) ∧
    ((sched_check0 st t pr pos).2.schedlist pos).active = false := by
  simp only [sched_check0, if_neg (show ¬ pos ≥ st.sched_count from by omega),
    hact, if_pos hdue, if_true, ite_true]
  refine ⟨trivial, trivial, ?_, ?_⟩
  · intro j
    by_cases hjp : j = pos
    · subst hjp
      rw [upd_same, checkSlotStep_id]
    · rw [upd_other _ _ _ _ hjp]
  · rw [upd_same]
    exact checkSlotStep_nonrec _ _ hrec

theorem checkSlotStep_c6 (s : Nat) :
    checkSlotStep (c6Slot s) c6pr = c6Slot (wrap32 (s + 1000)) := by
  simp [checkSlotStep, c6Slot, c6pr, MAX_DIGITAL_PIN, debounceLowStep, wrap8,
    DEBOUNCE_THRESH_DOWN, DEBOUNCE_THRESH_BOTTOM]

theorem c6_arm :
    (sched_event sched_list_init_state 0 c6pr 7 true 1000).2 = c6State 1000 := by
  apply SchedState.ext
  · funext j
    by_cases hj : j = 0
    · subst hj
      decide
    · simp [sched_event, sched_find, sched_list_init_state, upd, c6State, hj,
        c6pr, MAX_SCHED, MAX_DIGITAL_PIN]
  · decide

theorem c6_find (s : Nat) : sched_find (c6State s).schedlist 1 7 = some 0 := by
  simp [sched_find, c6State, c6Slot]

theorem c6_notdue (s t : Nat) (h : t < s) :
    sched_check (c6State s) t c6pr 7 = (false, c6State s) := by
  rw [sched_check_some _ _ _ _ 0 (c6_find s)]
  exact sched_check0_notdue _ _ _ _ (by simpa [c6State, c6Slot] using h)

theorem c6_due (s : Nat) (h : s + 1000 < 4294967296) :
    sched_check (c6State s) s c6pr 7 = (true, c6State (s + 1000)) := by
  rw [sched_check_some _ _ _ _ 0 (c6_find s)]
  have h1 : ((c6State s).schedlist 0).active = true := rfl
  have h2 : ((c6State s).schedlist 0).schedtime ≤ s := by
    simp [c6State, c6Slot]
  simp only [sched_check0,
    if_neg (show ¬ (0 ≥ (c6State s).sched_count) from by simp [c6State]),
    h1, if_pos h2, if_true, ite_true]
  have hsl : (c6State s).schedlist 0 = c6Slot s := rfl
  rw [hsl, checkSlotStep_c6,
    show wrap32 (s + 1000) = s + 1000 from Nat.mod_eq_of_lt h]
  refine congrArg (Prod.mk true) ?_
  apply SchedState.ext
  · funext j
    by_cases hj : j = 0
    · subst hj
      simp [upd, c6State]
    · simp [upd, hj, c6State]
  · rfl

theorem c6run_eq (n : Nat) (hle : n ≤ 3500) :
    c6run n = ((List.range (n / 1000)).map (fun k => 1000 * (k + 1)),
               c6State (1000 * (n / 1000 + 1))) := by
  induction n with
  | zero => simp [c6run, c6_arm]
  | succ n ih =>
    have ihh := ih (by omega)
    by_cases hdiv : (n + 1) % 1000 = 0
    · have h1 : n + 1 = 1000 * (n / 1000 + 1) := by omega
      have h2 : (n + 1) / 1000 = n / 1000 + 1 := by omega
      have hdue := c6_due (n + 1) (by omega)
      rw [c6run, ihh]
      simp only [← h1, hdue, if_true, ite_true]
      rw [h2, List.range_succ, List.map_append,
        show (1000 * (n / 1000 + 1 + 1)) = n + 1 + 1000 from by omega]
      simp [← h1]
    · have h2 : (n + 1) / 1000 = n / 1000 := by omega
      have hlt : n + 1 < 1000 * (n / 1000 + 1) := by omega
      have hnd := c6_notdue (1000 * (n / 1000 + 1)) (n + 1) hlt
      rw [c6run, ihh]
      simp only [hnd, Bool.false_eq_true, if_false, ite_false, h2]

theorem upd_field_id (f : Nat → Slot) (i : Nat) (g : Slot → Slot)
    (hg : ∀ u, (g u).id = u.id) (j : Nat) : (upd f i g j).id = (f j).id := by
  by_cases hj : j = i
  · subst hj
    rw [upd_same, hg]
  · rw [upd_other _ _ _ _ hj]

theorem sched_event_new (st : SchedState) (t : Nat) (pr : Nat → Bool)
    (ident : Nat) (recur : Bool) (ms : Nat)
    (hfind : sched_find st.schedlist st.sched_count ident = none)
    (hroom : st.sched_count < MAX_SCHED) :
    (sched_event st t pr ident recur ms).1 = true ∧
    (sched_event st t pr ident recur ms).2.sched_count = st.sched_count + 1 ∧
    ((sched_event st t pr ident recur ms).2.schedlist st.sched_count).schedtime =
      wrap32 (ms + t) := by
  simp only [sched_event, hfind, if_pos hroom]
  by_cases hpin : ident ≤ MAX_DIGITAL_PIN
  · simp only [hpin, if_true, ite_true]
    refine ⟨trivial, trivial, ?_⟩
    rw [upd_same, upd_same]
  · simp only [hpin, if_false, ite_false]
    refine ⟨trivial, trivial, ?_⟩
    rw [upd_same]

theorem checkSlotStep_zero (s : Slot) (pr : Nat → Bool)
    (hrec : s.recurring = true) (hms : s.schedms = 0)
    (hpin : s.id ≤ MAX_DIGITAL_PIN) :
    (checkSlotStep s pr).debounce_state = pr s.id ∧
    (checkSlotStep s pr).debounce_ct =
      (if pr s.id then DEBOUNCE_THRESH_MAX else DEBOUNCE_THRESH_BOTTOM) ∧
    (checkSlotStep s pr).debounce_change =
      (if pr s.id = s.debounce_state then s.debounce_change
       else (s.debounce_change + 1) % 256) ∧
    (checkSlotStep s pr).event_ct_up =
      (if pr s.id = true ∧ s.debounce_state = false
       then wrap16 (s.event_ct_up + 1) else s.event_ct_up) ∧
    (checkSlotStep s pr).event_ct_down =
      (if pr s.id = false ∧ s.debounce_state = true
       then wrap16 (s.event_ct_down + 1) else s.event_ct_down) ∧
    (checkSlotStep s pr).schedtime =
      wrap32 (wrap32 (s.schedtime + s.schedms) + 1) ∧
    (checkSlotStep s pr).active = s.active ∧
    (checkSlotStep s pr).recurring = s.recurring ∧
    (checkSlotStep s pr).laststate = pr s.id := by
  simp only [checkSlotStep, hrec, hms, if_true, ite_true, if_pos, hpin]
  cases hl : pr s.id with
  | true =>
    cases hst : s.debounce_state <;>
      simp [debounceHighStep, hl, hst, DEBOUNCE_THRESH_MAX,
        DEBOUNCE_THRESH_UP, DEBOUNCE_THRESH_BOTTOM, hrec]
  | false =>
    cases hst : s.debounce_state <;>
      simp [debounceLowStep, hl, hst, DEBOUNCE_THRESH_MAX,
        DEBOUNCE_THRESH_DOWN, DEBOUNCE_THRESH_BOTTOM, hrec]

/-!
Claim theorems.
-/

/-- C9: if the table already holds its maximum number of slots and id is not
present in it, sched_event returns failure (0) and mutates no state: the
result state is exactly the input state. -/
theorem C9_capacity_full_noop (st : SchedState) (t : Nat) (pr : Nat → Bool)
    (ident : Nat) (recur : Bool) (ms : Nat)
    (hfull : st.sched_count = MAX_SCHED)
    (hnot : sched_find st.schedlist st.sched_count ident = none) :
    sched_event st t pr ident recur ms = (false, st) := by
  have hnot10 : sched_find st.schedlist 10 ident = none := by
    have h := hnot
    rw [hfull] at h
    exact h
  simp [sched_event, hfull, hnot10, MAX_SCHED]

/-- Witness for C9: a concrete full table (ids 20..29) and an unknown id 19:
sched_event fails and returns the table untouched. -/
theorem C9_capacity_full_noop_witness :
    stFull.sched_count = MAX_SCHED ∧
    sched_find stFull.schedlist stFull.sched_count 19 = none ∧
    sched_event stFull 0 (fun _ => false) 19 true 5 = (false, stFull) :=
  ⟨by decide, by decide,
   C9_capacity_full_noop stFull 0 (fun _ => false) 19 true 5 (by decide)
     (by decide)⟩

/-- C5 counterexample: with the analog scan count at its clamp maximum 6
(a value sched_list_init itself produces), the channel equal to the count
is NOT rejected by the guard (pin > num) and the returned value is the read
of the cell one past the 6-cell buffer, modelled by the junk parameter 42,
not 0.  This refutes the claim that analog_read(count) returns 0 rather
than reading the sample buffer. -/
theorem C5_counterexample :
    (sched_analog_init 6).1 = 6 ∧
    sched_analogread 6 (List.replicate 6 0) 42 6 = 42 ∧
    sched_analogread 6 (List.replicate 6 0) 42 6 ≠ 0 := by decide

/-- C5 amended: analog_read returns 0 for every channel strictly beyond the
scan count; for channel equal to the count it reads the buffer cell at that
index, which holds 0 in every state reachable through init and the ISR ring
writer as long as the count is below the buffer capacity of 6; init
establishes that invariant and a scan tick preserves it. -/
theorem C5_analogread_amended :
    (∀ num buf junk pin, num < pin →
      sched_analogread num buf junk pin = 0) ∧
    (∀ num buf junk pin, AnalogInv num buf → num ≤ MAX_ANALOG_PIN →
      num ≤ pin → sched_analogread num buf junk pin = 0) ∧
    (∀ n, AnalogInv (sched_analog_init n).1 (sched_analog_init n).2) ∧
    (∀ num cur buf sample, cur < num → AnalogInv num buf →
      AnalogInv num (sched_analog_tick num cur buf sample).2) := by
  refine ⟨?_, ?_, ?_, ?_⟩
  · intro num buf junk pin h
    simp [sched_analogread, h]
  · intro num buf junk pin hinv hnum hpin
    by_cases hgt : pin > num
    · simp [sched_analogread, hgt]
    · have heq : pin = num := by omega
      subst heq
      have hlen : pin < buf.length := by
        rw [hinv.1]
        simp [MAX_ANALOG_PIN] at hnum ⊢
        omega
      have hz := hinv.2 pin (le_refl pin) hlen
      rw [List.get?_eq_get hlen] at hz
      simp only [sched_analogread, hgt, if_false, ite_false, hlen, dif_pos]
      simpa using hz
  · intro n
    constructor
    · simp [sched_analog_init]
    · intro j h1 h2
      simp only [sched_analog_init] at h2 ⊢
      have : j < 6 := by simpa [MAX_ANALOG_PIN] using h2
      interval_cases j <;> rfl
  · intro num cur buf sample hcur hinv
    have hne : num ≠ 0 := by omega
    simp only [sched_analog_tick, hne, ne_eq, not_false_iff, if_true, ite_true]
    constructor
    · rw [List.length_set, hinv.1]
    · intro j h1 h2
      rw [List.length_set] at h2
      rw [List.get?_set_ne _ _ (show cur ≠ j from by omega)]
      exact hinv.2 j h1 h2

/-- C5 witness: a concrete count 3 with the zeroed init buffer; channels 3
(equal to the count) and 5 (beyond it) both read 0, and the invariant holds
after init(3) and after a tick writing 777 to channel 1. -/
theorem C5_analogread_amended_witness :
    sched_analogread 3 (List.replicate 6 0) 42 5 = 0 ∧
    (AnalogInv 3 (List.replicate 6 0) ∧ (3 : Nat) ≤ MAX_ANALOG_PIN ∧
      (3 : Nat) ≤ 3 ∧ sched_analogread 3 (List.replicate 6 0) 42 3 = 0) ∧
    AnalogInv (sched_analog_init 3).1 (sched_analog_init 3).2 ∧
    AnalogInv 3 (sched_analog_tick 3 1 (List.replicate 6 0) 777).2 := by
  have hinv : AnalogInv 3 (List.replicate 6 0) := by
    constructor
    · decide
    · intro j h1 h2
      have : j < 6 := by simpa using h2
      interval_cases j <;> rfl
  refine ⟨?_, ⟨hinv, by decide, by decide, ?_⟩, ?_, ?_⟩
  · exact C5_analogread_amended.1 3 (List.replicate 6 0) 42 5 (by decide)
  · exact C5_analogread_amended.2.1 3 (List.replicate 6 0) 42 3 hinv
      (by decide) (by decide)
  · exact C5_analogread_amended.2.2.1 3
  · exact C5_analogread_amended.2.2.2 3 1 (List.replicate 6 0) 777
      (by decide) hinv

/-- C10: for every registered id, event_count with reset = true writes BOTH
counters: each ends at 0 or 1 whatever its previous value, for either
queried direction, so the opposite direction does not keep an accumulated
count across a reset.  The uninitialized local of the source (holdup or
holddown, whichever the level test did not assign) is universally
quantified as hup0/hdown0. -/
theorem C10_reset_writes_both (st : SchedState) (ident pos : Nat)
    (level : Bool) (hup0 hdown0 : Nat)
    (hfind : sched_find st.schedlist st.sched_count ident = some pos) :
    (((sched_pin_event_count_seq st ident level true hup0 hdown0).2.schedlist
        pos).event_ct_up = 0 ∨
     ((sched_pin_event_count_seq st ident level true hup0 hdown0).2.schedlist
        pos).event_ct_up = 1) ∧
    (((sched_pin_event_count_seq st ident level true hup0 hdown0).2.schedlist
        pos).event_ct_down = 0 ∨
     ((sched_pin_event_count_seq st ident level true hup0 hdown0).2.schedlist
        pos).event_ct_down = 1) := by
  simp only [sched_pin_event_count_seq, hfind, if_true, ite_true]
  constructor <;>
    · simp only [upd_same]
      split <;> split <;> simp

/-- Witness for C10: concrete resets in both directions on a slot holding
counts 5 and 2; afterwards both counters are 0 or 1. -/
theorem C10_reset_writes_both_witness :
    (((sched_pin_event_count_seq stPin3 3 true true 0 99).2.schedlist
        0).event_ct_up = 0 ∨
     ((sched_pin_event_count_seq stPin3 3 true true 0 99).2.schedlist
        0).event_ct_up = 1) ∧
    (((sched_pin_event_count_seq stPin3 3 true true 0 99).2.schedlist
        0).event_ct_down = 0 ∨
     ((sched_pin_event_count_seq stPin3 3 true true 0 99).2.schedlist
        0).event_ct_down = 1) ∧
    (((sched_pin_event_count_seq stPin3 3 false true 7 0).2.schedlist
        0).event_ct_down = 0 ∨
     ((sched_pin_event_count_seq stPin3 3 false true 7 0).2.schedlist
        0).event_ct_down = 1) :=
  ⟨(C10_reset_writes_both stPin3 3 0 true 0 99 (by decide)).1,
   (C10_reset_writes_both stPin3 3 0 true 0 99 (by decide)).2,
   (C10_reset_writes_both stPin3 3 0 false 7 0 (by decide)).2⟩

/-- C7 counterexample: a recurring timer (id 20, period 1000, due at 1000)
polled late, at tick 2500.  The self-rearm sets due_time to the OLD due
time plus the period (2000), not to now + period (3500), refuting the
invariant as claimed. -/
theorem C7_counterexample :
    (sched_check stTimer20 2500 (fun _ => false) 20).1 = true ∧
    ((sched_check stTimer20 2500 (fun _ => false) 20).2.schedlist
      0).schedtime = 2000 ∧
    wrap32 (2500 + 1000) = 3500 ∧ (2000 : Nat) ≠ 3500 := by decide

/-- C7 amended: sched_event (for a re-registered id and for a newly
allocated one) stamps due_time = period + now modulo 2^32; but the
self-rearm performed when poll observes a recurring expiry sets due_time to
the PREVIOUS due_time plus the period, which coincides with now + period
exactly when the poll runs at the very tick the slot came due (no
wrap-around). -/
theorem C7_due_time_amended :
    (∀ st t pr ident recur ms pos,
      sched_find st.schedlist st.sched_count ident = some pos →
      ((sched_event st t pr ident recur ms).2.schedlist pos).schedtime =
        wrap32 (ms + t)) ∧
    (∀ st t pr ident recur ms,
      sched_find st.schedlist st.sched_count ident = none →
      st.sched_count < MAX_SCHED →
      ((sched_event st t pr ident recur ms).2.schedlist
        st.sched_count).schedtime = wrap32 (ms + t)) ∧
    (∀ st t pr pos, pos < st.sched_count →
      (st.schedlist pos).active = true →
      (st.schedlist pos).recurring = true →
      (st.schedlist pos).schedms ≠ 0 →
      (st.schedlist pos).schedtime ≤ t →
      ((sched_check0 st t pr pos).2.schedlist pos).schedtime =
        wrap32 ((st.schedlist pos).schedtime + (st.schedlist pos).schedms)) ∧
    (∀ st t pr pos, pos < st.sched_count →
      (st.schedlist pos).active = true →
      (st.schedlist pos).recurring = true →
      (st.schedlist pos).schedms ≠ 0 →
      (st.schedlist pos).schedtime = t →
      t + (st.schedlist pos).schedms < 4294967296 →
      ((sched_check0 st t pr pos).2.schedlist pos).schedtime =
        t + (st.schedlist pos).schedms) := by
  refine ⟨?_, ?_, ?_, ?_⟩
  · intro st t pr ident recur ms pos hfind
    exact (sched_event_found st t pr ident recur ms pos hfind).2.2.2.2.2.2.1
  · intro st t pr ident recur ms hfind hroom
    exact (sched_event_new st t pr ident recur ms hfind hroom).2.2
  · intro st t pr pos h1 h2 h3 h4 h5
    exact (sched_check0_due_recurring st t pr pos h1 h2 h3 h4 h5).2.2.2.2.1
  · intro st t pr pos h1 h2 h3 h4 h5 h6
    rw [(sched_check0_due_recurring st t pr pos h1 h2 h3 h4 h5.le).2.2.2.2.1,
      h5, wrap32, Nat.mod_eq_of_lt h6]

/-- Witness for C7 amended: a re-registration stamped at tick 50 with
period 300; arming a fresh id 25 on the empty table at tick 3; and the
on-time self-rearm of the period-1000 timer polled exactly at tick 1000,
which lands at 2000 = 1000 + 1000. -/
theorem C7_due_time_amended_witness :
    ((sched_event stTimer20 50 (fun _ => false) 20 true 300).2.schedlist
      0).schedtime = wrap32 (300 + 50) ∧
    ((sched_event sched_list_init_state 3 (fun _ => false) 25 true
      100).2.schedlist 0).schedtime = wrap32 (100 + 3) ∧
    ((sched_check0 stTimer20 1000 (fun _ => false) 0).2.schedlist
      0).schedtime = wrap32 (1000 + 1000) ∧
    ((sched_check0 stTimer20 1000 (fun _ => false) 0).2.schedlist
      0).schedtime = 1000 + 1000 :=
  ⟨C7_due_time_amended.1 stTimer20 50 (fun _ => false) 20 true 300 0
     (by decide),
   C7_due_time_amended.2.1 sched_list_init_state 3 (fun _ => false) 25 true
     100 (by decide) (by decide),
   C7_due_time_amended.2.2.1 stTimer20 1000 (fun _ => false) 0 (by decide)
     (by decide) (by decide) (by decide) (by decide),
   C7_due_time_amended.2.2.2 stTimer20 1000 (fun _ => false) 0 (by decide)
     (by decide) (by decide) (by decide) (by decide) (by decide)⟩

/-- C4: the source is wrong where the claim and the spec state the intent.
Pin 3 is armed LOW, goes HIGH, and is re-registered by sched_event while
instantaneously HIGH.  The accumulator (debounce_ct) is snapshotted to 20
at the slot, but the debounce level and changed flag are written through
the stale index i = sched_count (lines 278-279 of the source use
schedlist[i] where the surrounding code uses schedlist[pos]), so they land
in the unused slot 1: the re-registered slot keeps debounce_state = LOW,
and the very next tick reports a spurious rising edge (pin_gohigh true,
rising counter bumped), which the claim says the snapshot must prevent. -/
theorem C4_rearm_snapshot_bug :
    (c4StArmedLow.schedlist 0).debounce_state = false ∧
    (c4StRearmedHigh.schedlist 0).laststate = true ∧
    (c4StRearmedHigh.schedlist 0).debounce_ct = 20 ∧
    (c4StRearmedHigh.schedlist 0).debounce_state = false ∧
    (c4StRearmedHigh.schedlist 0).debounce_change =
      (c4StArmedLow.schedlist 0).debounce_change ∧
    (c4StRearmedHigh.schedlist 1).debounce_state = true ∧
    (sched_check c4StRearmedHigh 6 (fun _ => true) 3).1 = true ∧
    ((sched_check c4StRearmedHigh 6 (fun _ => true) 3).2.schedlist
      0).event_ct_up = 1 ∧
    (sched_pin_gohigh (sched_check c4StRearmedHigh 6 (fun _ => true) 3).2
      3).1 = true := by decide

/-- C1 counterexample: the single ISR increment lands at access boundary 3,
between the reset logic's detection re-read of the rising counter and the
reset store.  The call returns the stable pre-edge count 0 and the counter
ends at 0, so a subsequent event_count(id, rising, false) reports 0 and the
confirmed edge is lost, although the edge was confirmed between the stable
read and the reset write, where the claim promises the counter is reset
to 1. -/
theorem C1_counterexample :
    (eventCountRaceUp 0 3).1 = 0 ∧
    (eventCountRaceUp 0 3).2 = 0 ∧
    (sched_pin_event_count_seq stPin3Zero 3 true false 0 0).1 = 0 ∧
    (sched_pin_event_count_seq stPin3Zero 3 true false 0 0).1 ≠ 1 := by
  decide

/-- C1 amended: in the interleaved model of event_count(id, rising, true)
with a single ISR increment, an increment at or before the detection
re-read (boundary k less than or equal to 2) is never lost: the returned
value plus the final counter account for all c + 1 edges, and when the
increment falls exactly between the stable read and the detection re-read
(k = 2) the counter is reset to 1, so a subsequent non-resetting
event_count of a registered id whose rising counter is 1 returns exactly 1. -/
theorem C1_no_lost_edge_amended :
    (∀ c k, c + 1 < 65536 → k ≤ 2 →
      ((eventCountRaceUp c k).1 + (eventCountRaceUp c k).2 = c + 1 ∧
       (k = 2 → (eventCountRaceUp c k).1 = c ∧ (eventCountRaceUp c k).2 = 1))) ∧
    (∀ st ident pos g1 g2,
      sched_find st.schedlist st.sched_count ident = some pos →
      (st.schedlist pos).event_ct_up = 1 →
      (sched_pin_event_count_seq st ident true false g1 g2).1 = 1) := by
  constructor
  · intro c k hc hk
    have hw : wrap16 (c + 1) = c + 1 := Nat.mod_eq_of_lt hc
    interval_cases k
    · refine ⟨?_, fun h => by omega⟩
      simp [eventCountRaceUp, raceLoop, raceInj, hw]
    · refine ⟨?_, fun h => by omega⟩
      simp [eventCountRaceUp, raceLoop, raceInj, hw, Nat.succ_ne_self]
    · have : eventCountRaceUp c 2 = (c, 1) := by
        simp [eventCountRaceUp, raceLoop, raceInj, hw, Nat.succ_ne_self]
      rw [this]
      exact ⟨by omega, fun _ => ⟨rfl, rfl⟩⟩
  · intro st ident pos g1 g2 hfind hone
    simp [sched_pin_event_count_seq, hfind, hone]

/-- Witness for C1 amended: the race at count 0 with the increment at
boundary 2 returns 0 and leaves the counter at 1; the follow-up read on a
concrete registered slot holding rising count 1 returns exactly 1. -/
theorem C1_no_lost_edge_amended_witness :
    ((0 : Nat) + 1 < 65536 ∧ (2 : Nat) ≤ 2 ∧
     (eventCountRaceUp 0 2).1 + (eventCountRaceUp 0 2).2 = 0 + 1 ∧
     (eventCountRaceUp 0 2).1 = 0 ∧ (eventCountRaceUp 0 2).2 = 1) ∧
    (sched_find stPin3One.schedlist stPin3One.sched_count 3 = some 0 ∧
     (stPin3One.schedlist 0).event_ct_up = 1 ∧
     (sched_pin_event_count_seq stPin3One 3 true false 0 0).1 = 1) :=
  ⟨⟨by decide, by decide,
    (C1_no_lost_edge_amended.1 0 2 (by decide) (by decide)).1,
    ((C1_no_lost_edge_amended.1 0 2 (by decide) (by decide)).2 rfl).1,
    ((C1_no_lost_edge_amended.1 0 2 (by decide) (by decide)).2 rfl).2⟩,
   ⟨by decide, by decide,
    C1_no_lost_edge_amended.2 stPin3One 3 0 0 0 (by decide) (by decide)⟩⟩

/-- C6: poll returns false for an unknown id, for a not-yet-due slot and
for an inactive slot, leaving the state untouched; a due non-recurring slot
yields true once and deactivates, so an immediate re-poll returns false; a
due recurring slot yields true, advances its due time by its period, and an
immediate re-poll at the same tick returns false (true exactly once per
expiry); and the cadence scenario: arming id 7 recurring with period 1000
at tick 0 and polling once per millisecond while the tick source advances
3500 ms yields true exactly at ticks 1000, 2000 and 3000 - three results,
each at least 1000 ms apart. -/
theorem C6_poll_semantics :
    (∀ st t pr ident, sched_find st.schedlist st.sched_count ident = none →
      sched_check st t pr ident = (false, st)) ∧
    (∀ st t pr pos, t < (st.schedlist pos).schedtime →
      sched_check0 st t pr pos = (false, st)) ∧
    (∀ st t pr pos, (st.schedlist pos).active = false →
      sched_check0 st t pr pos = (false, st)) ∧
    (∀ st t pr pos, pos < st.sched_count →
      (st.schedlist pos).active = true →
      (st.schedlist pos).recurring = false →
      (st.schedlist pos).schedtime ≤ t →
      (sched_check0 st t pr pos).1 = true ∧
      ((sched_check0 st t pr pos).2.schedlist pos).active = false ∧
      (∀ t2, sched_check0 (sched_check0 st t pr pos).2 t2 pr pos =
        (false, (sched_check0 st t pr pos).2))) ∧
    (∀ st t pr pos, pos < st.sched_count →
      (st.schedlist pos).active = true →
      (st.schedlist pos).recurring = true →
      (st.schedlist pos).schedms ≠ 0 →
      (st.schedlist pos).schedtime ≤ t →
      (st.schedlist pos).schedtime + (st.schedlist pos).schedms <
        4294967296 →
      t < (st.schedlist pos).schedtime + (st.schedlist pos).schedms →
      (sched_check0 st t pr pos).1 = true ∧
      ((sched_check0 st t pr pos).2.schedlist pos).schedtime =
        (st.schedlist pos).schedtime + (st.schedlist pos).schedms ∧
      sched_check0 (sched_check0 st t pr pos).2 t pr pos =
        (false, (sched_check0 st t pr pos).2)) ∧
    ((c6run 3500).1 = [1000, 2000, 3000] ∧
     List.Chain' (fun a b => a + 1000 ≤ b) (c6run 3500).1) := by
  refine ⟨?_, ?_, ?_, ?_, ?_, ?_⟩
  · exact sched_check_none
  · exact sched_check0_notdue
  · exact sched_check0_inactive
  · intro st t pr pos h1 h2 h3 h4
    obtain ⟨k1, k2, k3, k4⟩ := sched_check0_due_nonrecurring st t pr pos h1 h2 h3 h4
    exact ⟨k1, k4, fun t2 => sched_check0_inactive _ t2 pr pos k4⟩
  · intro st t pr pos h1 h2 h3 h4 h5 h6 h7
    obtain ⟨k1, k2, k3, k4, k5, k6, k7, k8⟩ :=
      sched_check0_due_recurring st t pr pos h1 h2 h3 h4 h5
    have hst : ((sched_check0 st t pr pos).2.schedlist pos).schedtime =
        (st.schedlist pos).schedtime + (st.schedlist pos).schedms := by
      rw [k5, wrap32, Nat.mod_eq_of_lt h6]
    refine ⟨k1, hst, ?_⟩
    apply sched_check0_notdue
    omega
  · have h := c6run_eq 3500 (le_refl 3500)
    have hl : (c6run 3500).1 = [1000, 2000, 3000] := by
      rw [h]
      decide
    refine ⟨hl, ?_⟩
    rw [hl]
    exact List.chain'_cons.2 ⟨by omega, List.chain'_cons.2
      ⟨by omega, List.chain'_singleton _⟩⟩

/-- Witness for C6: the hypothesized conjuncts instantiated concretely -
an unknown id on the empty table, an early poll of the period-1000 timer,
a poll of an inactive slot, the one-shot timer id 30 firing once at its due
tick 200 and refusing a re-poll, and the recurring timer firing at tick
1000 with its re-poll at the same tick returning false. -/
theorem C6_poll_semantics_witness :
    sched_check sched_list_init_state 9 (fun _ => false) 42 =
      (false, sched_list_init_state) ∧
    sched_check0 stTimer20 500 (fun _ => false) 0 = (false, stTimer20) ∧
    sched_check0 stFull 500 (fun _ => false) 0 = (false, stFull) ∧
    ((sched_check0 stOnce30 200 (fun _ => false) 0).1 = true ∧
     ((sched_check0 stOnce30 200 (fun _ => false) 0).2.schedlist
       0).active = false ∧
     sched_check0 (sched_check0 stOnce30 200 (fun _ => false) 0).2 201
       (fun _ => false) 0 =
       (false, (sched_check0 stOnce30 200 (fun _ => false) 0).2)) ∧
    ((sched_check0 stTimer20 1000 (fun _ => false) 0).1 = true ∧
     ((sched_check0 stTimer20 1000 (fun _ => false) 0).2.schedlist
       0).schedtime = 2000 ∧
     sched_check0 (sched_check0 stTimer20 1000 (fun _ => false) 0).2 1000
       (fun _ => false) 0 =
       (false, (sched_check0 stTimer20 1000 (fun _ => false) 0).2)) := by
  refine ⟨C6_poll_semantics.1 sched_list_init_state 9 (fun _ => false) 42
      (by decide),
    C6_poll_semantics.2.1 stTimer20 500 (fun _ => false) 0 (by decide),
    C6_poll_semantics.2.2.1 stFull 500 (fun _ => false) 0 (by decide),
    ?_, ?_⟩
  · obtain ⟨w1, w2, w3⟩ := C6_poll_semantics.2.2.2.1 stOnce30 200
      (fun _ => false) 0 (by decide) (by decide) (by decide) (by decide)
    exact ⟨w1, w2, w3 201⟩
  · obtain ⟨w1, w2, w3⟩ := C6_poll_semantics.2.2.2.2.1 stTimer20 1000
      (fun _ => false) 0 (by decide) (by decide) (by decide) (by decide)
      (by decide) (by decide) (by decide)
    exact ⟨w1, w2, w3⟩

theorem gohigh_clear (st : SchedState) (ident pos : Nat)
    (hpos : pos < st.sched_count)
    (hfind : sched_find st.schedlist st.sched_count ident = some pos)
    (hch : (st.schedlist pos).debounce_change = 0) :
    (sched_pin_gohigh st ident).1 = false := by
  rw [sched_pin_gohigh_some _ _ _ hfind]
  cases hval : (st.schedlist pos).active <;>
    simp [sched_pin_test0, hch, hval,
      show ¬ pos ≥ st.sched_count from by omega]

theorem golow_clear (st : SchedState) (ident pos : Nat)
    (hpos : pos < st.sched_count)
    (hfind : sched_find st.schedlist st.sched_count ident = some pos)
    (hch : (st.schedlist pos).debounce_change = 0) :
    (sched_pin_golow st ident).1 = false := by
  rw [sched_pin_golow_some _ _ _ hfind]
  cases hval : (st.schedlist pos).active <;>
    simp [sched_pin_test0, hch, hval,
      show ¬ pos ≥ st.sched_count from by omega]

theorem clearfun_find (st : SchedState) (ident pos : Nat)
    (hfind : sched_find st.schedlist st.sched_count ident = some pos) :
    sched_find (upd st.schedlist pos
      (fun u => { u with debounce_change := 0 })) st.sched_count ident =
      some pos := by
  rw [sched_find_congr st.schedlist
    (upd st.schedlist pos (fun u => { u with debounce_change := 0 }))
    st.sched_count ident
    (fun i _ => upd_field_id st.schedlist pos
      (fun u => { u with debounce_change := 0 }) (fun u => rfl) i)]
  exact hfind

theorem gohigh_once (st : SchedState) (ident pos : Nat)
    (hpos : pos < st.sched_count)
    (hfind : sched_find st.schedlist st.sched_count ident = some pos)
    (hact : (st.schedlist pos).active = true)
    (hch : (st.schedlist pos).debounce_change ≠ 0)
    (hst : (st.schedlist pos).debounce_state = true) :
    (sched_pin_gohigh st ident).1 = true ∧
    (sched_pin_gohigh (sched_pin_gohigh st ident).2 ident).1 = false := by
  have heq : sched_pin_gohigh st ident =
      (if (st.schedlist pos).debounce_change ≠ 0 ∧
          (st.schedlist pos).debounce_state = true then true else false,
       { st with
         schedlist :=
           upd st.schedlist pos (fun u => { u with debounce_change := 0 }) }) := by
    rw [sched_pin_gohigh_some _ _ _ hfind,
      sched_pin_test0_delta _ _ _ hpos hact]
  constructor
  · rw [heq]
    simp [hch, hst]
  · rw [heq]
    exact gohigh_clear
      { st with
        schedlist :=
          upd st.schedlist pos (fun u => { u with debounce_change := 0 }) }
      ident pos hpos (clearfun_find st ident pos hfind)
      (by
        show (upd st.schedlist pos _ pos).debounce_change = 0
        rw [upd_same])

theorem golow_once (st : SchedState) (ident pos : Nat)
    (hpos : pos < st.sched_count)
    (hfind : sched_find st.schedlist st.sched_count ident = some pos)
    (hact : (st.schedlist pos).active = true)
    (hch : (st.schedlist pos).debounce_change ≠ 0)
    (hst : (st.schedlist pos).debounce_state = false) :
    (sched_pin_golow st ident).1 = true ∧
    (sched_pin_golow (sched_pin_golow st ident).2 ident).1 = false := by
  have heq : sched_pin_golow st ident =
      (if (st.schedlist pos).debounce_change ≠ 0 ∧
          (st.schedlist pos).debounce_state = false then true else false,
       { st with
         schedlist :=
           upd st.schedlist pos (fun u => { u with debounce_change := 0 }) }) := by
    rw [sched_pin_golow_some _ _ _ hfind,
      sched_pin_test0_delta _ _ _ hpos hact]
  constructor
  · rw [heq]
    simp [hch, hst]
  · rw [heq]
    exact golow_clear
      { st with
        schedlist :=
          upd st.schedlist pos (fun u => { u with debounce_change := 0 }) }
      ident pos hpos (clearfun_find st ident pos hfind)
      (by
        show (upd st.schedlist pos _ pos).debounce_change = 0
        rw [upd_same])

/-- C8: a pin-watch slot armed recurring with period 0 disables smoothing:
on each due tick the confirmed level is forced to the instantaneous read
(accumulator snapped to 20 or 0), the change counter and the matching edge
counter advance exactly when the confirmed level flips, and pin_gohigh
(respectively pin_golow) then returns true exactly once for the confirmed
transition - a second immediate call returns false. -/
theorem C8_zero_period_tracks (st : SchedState) (t : Nat) (pr : Nat → Bool)
    (pos : Nat)
    (hpos : pos < st.sched_count)
    (hact : (st.schedlist pos).active = true)
    (hrec : (st.schedlist pos).recurring = true)
    (hms : (st.schedlist pos).schedms = 0)
    (hdue : (st.schedlist pos).schedtime ≤ t)
    (hpin : (st.schedlist pos).id ≤ MAX_DIGITAL_PIN) :
    (sched_check0 st t pr pos).1 = true ∧
    ((sched_check0 st t pr pos).2.schedlist pos).debounce_state =
      pr (st.schedlist pos).id ∧
    ((sched_check0 st t pr pos).2.schedlist pos).debounce_ct =
      (if pr (st.schedlist pos).id then DEBOUNCE_THRESH_MAX
       else DEBOUNCE_THRESH_BOTTOM) ∧
    ((sched_check0 st t pr pos).2.schedlist pos).debounce_change =
      (if pr (st.schedlist pos).id = (st.schedlist pos).debounce_state
       then (st.schedlist pos).debounce_change
       else ((st.schedlist pos).debounce_change + 1) % 256) ∧
    ((sched_check0 st t pr pos).2.schedlist pos).event_ct_up =
      (if pr (st.schedlist pos).id = true ∧
          (st.schedlist pos).debounce_state = false
       then wrap16 ((st.schedlist pos).event_ct_up + 1)
       else (st.schedlist pos).event_ct_up) ∧
    ((sched_check0 st t pr pos).2.schedlist pos).event_ct_down =
      (if pr (st.schedlist pos).id = false ∧
          (st.schedlist pos).debounce_state = true
       then wrap16 ((st.schedlist pos).event_ct_down + 1)
       else (st.schedlist pos).event_ct_down) ∧
    (pr (st.schedlist pos).id = true →
     (st.schedlist pos).debounce_state = false →
     (st.schedlist pos).debounce_change = 0 →
     sched_find (sched_check0 st t pr pos).2.schedlist
       (sched_check0 st t pr pos).2.sched_count (st.schedlist pos).id =
       some pos →
     (sched_pin_gohigh (sched_check0 st t pr pos).2
        (st.schedlist pos).id).1 = true ∧
     (sched_pin_gohigh
        (sched_pin_gohigh (sched_check0 st t pr pos).2
          (st.schedlist pos).id).2 (st.schedlist pos).id).1 = false) ∧
    (pr (st.schedlist pos).id = false →
     (st.schedlist pos).debounce_state = true →
     (st.schedlist pos).debounce_change = 0 →
     sched_find (sched_check0 st t pr pos).2.schedlist
       (sched_check0 st t pr pos).2.sched_count (st.schedlist pos).id =
       some pos →
     (sched_pin_golow (sched_check0 st t pr pos).2
        (st.schedlist pos).id).1 = true ∧
     (sched_pin_golow
        (sched_pin_golow (sched_check0 st t pr pos).2
          (st.schedlist pos).id).2 (st.schedlist pos).id).1 = false) := by
  obtain ⟨z1, z2, z3, z4, z5, z6, z7, z8, z9⟩ :=
    checkSlotStep_zero (st.schedlist pos) pr hrec hms hpin
  have hopen : sched_check0 st t pr pos =
      (true, { st with
               schedlist :=
                 upd st.schedlist pos
                   (fun _ => checkSlotStep (st.schedlist pos) pr) }) := by
    simp only [sched_check0, if_neg (show ¬ pos ≥ st.sched_count from by
      omega), hact, if_pos hdue, if_true, ite_true]
  rw [hopen]
  simp only [upd_same]
  refine ⟨trivial, z1, z2, z3, z4, z5, ?_, ?_⟩
  · intro hl hst hch0 hfind2
    have hact1 : (checkSlotStep (st.schedlist pos) pr).active = true := by
      rw [z7]
      exact hact
    have hch1 : (checkSlotStep (st.schedlist pos) pr).debounce_change ≠ 0 := by
      rw [z3, hl, hst]
      simp [hch0]
    have hst1 : (checkSlotStep (st.schedlist pos) pr).debounce_state = true := by
      rw [z1, hl]
    have hact2 : ((upd st.schedlist pos
        (fun _ => checkSlotStep (st.schedlist pos) pr)) pos).active = true := by
      rw [upd_same]
      exact hact1
    have hch2 : ((upd st.schedlist pos
        (fun _ => checkSlotStep (st.schedlist pos) pr))
          pos).debounce_change ≠ 0 := by
      rw [upd_same]
      exact hch1
    have hst2 : ((upd st.schedlist pos
        (fun _ => checkSlotStep (st.schedlist pos) pr))
          pos).debounce_state = true := by
      rw [upd_same]
      exact hst1
    exact gohigh_once
      { st with
        schedlist :=
          upd st.schedlist pos (fun _ => checkSlotStep (st.schedlist pos) pr) }
      (st.schedlist pos).id pos hpos hfind2 hact2 hch2 hst2
  · intro hl hst hch0 hfind2
    have hact1 : (checkSlotStep (st.schedlist pos) pr).active = true := by
      rw [z7]
      exact hact
    have hch1 : (checkSlotStep (st.schedlist pos) pr).debounce_change ≠ 0 := by
      rw [z3, hl, hst]
      simp [hch0]
    have hst1 : (checkSlotStep (st.schedlist pos) pr).debounce_state = false := by
      rw [z1, hl]
    have hact2 : ((upd st.schedlist pos
        (fun _ => checkSlotStep (st.schedlist pos) pr)) pos).active = true := by
      rw [upd_same]
      exact hact1
    have hch2 : ((upd st.schedlist pos
        (fun _ => checkSlotStep (st.schedlist pos) pr))
          pos).debounce_change ≠ 0 := by
      rw [upd_same]
      exact hch1
    have hst2 : ((upd st.schedlist pos
        (fun _ => checkSlotStep (st.schedlist pos) pr))
          pos).debounce_state = false := by
      rw [upd_same]
      exact hst1
    exact golow_once
      { st with
        schedlist :=
          upd st.schedlist pos (fun _ => checkSlotStep (st.schedlist pos) pr) }
      (st.schedlist pos).id pos hpos hfind2 hact2 hch2 hst2

/-- Witness for C8: the zero-period slot (pin 2, confirmed LOW, change flag
clear) ticked at 5 while the pin reads HIGH: poll fires, the confirmed
level snaps HIGH with accumulator 20, the change counter and rising counter
advance by one, and pin_gohigh fires exactly once. -/
theorem C8_zero_period_tracks_witness :
    (sched_check0 stZeroPeriod 5 (fun _ => true) 0).1 = true ∧
    ((sched_check0 stZeroPeriod 5 (fun _ => true) 0).2.schedlist
      0).debounce_state = true ∧
    ((sched_check0 stZeroPeriod 5 (fun _ => true) 0).2.schedlist
      0).debounce_ct = DEBOUNCE_THRESH_MAX ∧
    ((sched_check0 stZeroPeriod 5 (fun _ => true) 0).2.schedlist
      0).debounce_change = 1 ∧
    ((sched_check0 stZeroPeriod 5 (fun _ => true) 0).2.schedlist
      0).event_ct_up = 1 ∧
    (sched_pin_gohigh (sched_check0 stZeroPeriod 5 (fun _ => true) 0).2
      2).1 = true ∧
    (sched_pin_gohigh
      (sched_pin_gohigh (sched_check0 stZeroPeriod 5 (fun _ => true) 0).2
        2).2 2).1 = false := by
  obtain ⟨w1, w2, w3, w4, w5, w6, w7, w8⟩ :=
    C8_zero_period_tracks stZeroPeriod 5 (fun _ => true) 0 (by decide)
      (by decide) (by decide) (by decide) (by decide) (by decide)
  obtain ⟨g1, g2⟩ := w7 (by decide) (by decide) (by decide) (by decide)
  exact ⟨w1, by simpa using w2, by simpa using w3, by simpa using w4,
    by simpa using w5, by simpa using g1, by simpa using g2⟩

/-- C3 counterexample: slot id 4 has a pending confirmed rising change, so
pin_gohigh would return true; but issuing pin_level first clears the change
flag (sched_pin_test0 zeroes debounce_change before it tests delta), so the
same pin_gohigh issued right after pin_level returns false, refuting the
claim that pin_level does not consume the changed flag. -/
theorem C3_counterexample :
    (sched_pin_gohigh stPin4 4).1 = true ∧
    (sched_pin_level stPin4 4 true).1 = true ∧
    (sched_pin_gohigh (sched_pin_level stPin4 4 true).2 4).1 = false := by
  decide

/-- C3 amended: for a registered active pin-watch id, pin_level returns the
current confirmed (debounced) level, but it CONSUMES the changed flag: the
slot's change counter is zero afterwards, and a pin_gohigh or pin_golow
issued immediately after pin_level returns false. -/
theorem C3_pin_level_amended (st : SchedState) (ident pos : Nat) (lv : Bool)
    (hfind : sched_find st.schedlist st.sched_count ident = some pos)
    (hact : (st.schedlist pos).active = true) :
    (sched_pin_level st ident lv).1 = (st.schedlist pos).debounce_state ∧
    ((sched_pin_level st ident lv).2.schedlist pos).debounce_change = 0 ∧
    (sched_pin_gohigh (sched_pin_level st ident lv).2 ident).1 = false ∧
    (sched_pin_golow (sched_pin_level st ident lv).2 ident).1 = false := by
  have hpos := sched_find_lt _ _ _ _ hfind
  have heq : sched_pin_level st ident lv =
      ((st.schedlist pos).debounce_state,
       { st with
         schedlist :=
           upd st.schedlist pos (fun u => { u with debounce_change := 0 }) }) := by
    rw [sched_pin_level_some _ _ _ lv hfind,
      sched_pin_test0_level _ _ _ hpos hact]
  rw [heq]
  refine ⟨rfl, ?_, ?_, ?_⟩
  · show (upd st.schedlist pos _ pos).debounce_change = 0
    rw [upd_same]
  · exact gohigh_clear
      { st with
        schedlist :=
          upd st.schedlist pos (fun u => { u with debounce_change := 0 }) }
      ident pos hpos (clearfun_find st ident pos hfind)
      (by
        show (upd st.schedlist pos _ pos).debounce_change = 0
        rw [upd_same])
  · exact golow_clear
      { st with
        schedlist :=
          upd st.schedlist pos (fun u => { u with debounce_change := 0 }) }
      ident pos hpos (clearfun_find st ident pos hfind)
      (by
        show (upd st.schedlist pos _ pos).debounce_change = 0
        rw [upd_same])

/-- Witness for C3 amended: pin_level on the concrete slot id 4 reports the
confirmed HIGH level, zeroes the change counter, and the edge queries right
after it return false. -/
theorem C3_pin_level_amended_witness :
    (sched_pin_level stPin4 4 true).1 = true ∧
    ((sched_pin_level stPin4 4 true).2.schedlist 0).debounce_change = 0 ∧
    (sched_pin_gohigh (sched_pin_level stPin4 4 true).2 4).1 = false ∧
    (sched_pin_golow (sched_pin_level stPin4 4 true).2 4).1 = false := by
  obtain ⟨w1, w2, w3, w4⟩ := C3_pin_level_amended stPin4 4 0 true (by decide)
    (by decide)
  exact ⟨w1.trans (by decide), w2, w3, w4⟩

/-- C2 counterexample: cancelling the armed pin-watch id 3 zeroes its rising
and falling edge counters (sched_event resets event_ct_up/event_ct_down on
every re-registration, and cancel is sched_event(id, 0, 0)), and pin_level
flips from true to false because an inactive slot reports level 0 - so
cancel does NOT leave the counters and the reported level unchanged. -/
theorem C2_counterexample :
    (stPin3.schedlist 0).event_ct_up = 5 ∧
    (stPin3.schedlist 0).event_ct_down = 2 ∧
    ((sched_cancel stPin3 10 (fun _ => true) 3).2.schedlist
      0).event_ct_up = 0 ∧
    ((sched_cancel stPin3 10 (fun _ => true) 3).2.schedlist
      0).event_ct_down = 0 ∧
    (sched_pin_level stPin3 3 true).1 = true ∧
    (sched_pin_level (sched_cancel stPin3 10 (fun _ => true) 3).2 3
      true).1 = false := by decide

/-- C2 amended: for every registered id, cancel deactivates the slot and
RESETS its rising and falling edge counters to zero; afterwards poll
returns false leaving the state unchanged and pin_level reports false
(inactive slots report no level); a second cancel leaves those observables
the same - deactivated, counters zero, poll false, pin_level false - until
the id is re-armed. -/
theorem C2_cancel_amended (st : SchedState) (t1 t2 tq : Nat)
    (pr1 pr2 prq : Nat → Bool) (ident pos : Nat) (lv : Bool)
    (hfind : sched_find st.schedlist st.sched_count ident = some pos) :
    ((sched_cancel st t1 pr1 ident).2.schedlist pos).active = false ∧
    ((sched_cancel st t1 pr1 ident).2.schedlist pos).event_ct_up = 0 ∧
    ((sched_cancel st t1 pr1 ident).2.schedlist pos).event_ct_down = 0 ∧
    sched_check (sched_cancel st t1 pr1 ident).2 tq prq ident =
      (false, (sched_cancel st t1 pr1 ident).2) ∧
    (sched_pin_level (sched_cancel st t1 pr1 ident).2 ident lv).1 = false ∧
    (((sched_cancel (sched_cancel st t1 pr1 ident).2 t2 pr2
        ident).2.schedlist pos).active = false ∧
     ((sched_cancel (sched_cancel st t1 pr1 ident).2 t2 pr2
        ident).2.schedlist pos).event_ct_up = 0 ∧
     ((sched_cancel (sched_cancel st t1 pr1 ident).2 t2 pr2
        ident).2.schedlist pos).event_ct_down = 0 ∧
     sched_check (sched_cancel (sched_cancel st t1 pr1 ident).2 t2 pr2
        ident).2 tq prq ident =
       (false, (sched_cancel (sched_cancel st t1 pr1 ident).2 t2 pr2
        ident).2) ∧
     (sched_pin_level (sched_cancel (sched_cancel st t1 pr1 ident).2 t2 pr2
        ident).2 ident lv).1 = false) := by
  simp only [sched_cancel]
  obtain ⟨e1, e2, e3, e4, e5, e6, e7, e8, e9, e10, e11⟩ :=
    sched_event_found st t1 pr1 ident false 0 pos hfind
  have hact1 : ((sched_event st t1 pr1 ident false 0).2.schedlist
      pos).active = false := by
    rw [e4, if_pos ⟨rfl, rfl⟩]
  have hfind1 : sched_find
      (sched_event st t1 pr1 ident false 0).2.schedlist
      (sched_event st t1 pr1 ident false 0).2.sched_count ident =
      some pos := by
    rw [e2, sched_find_congr st.schedlist _ st.sched_count ident
      (fun i _ => e3 i)]
    exact hfind
  obtain ⟨f1, f2, f3, f4, f5, f6, f7, f8, f9, f10, f11⟩ :=
    sched_event_found (sched_event st t1 pr1 ident false 0).2 t2 pr2 ident
      false 0 pos hfind1
  have hact2 : ((sched_event (sched_event st t1 pr1 ident false 0).2 t2 pr2
      ident false 0).2.schedlist pos).active = false := by
    rw [f4, if_pos ⟨rfl, rfl⟩]
  have hfind2 : sched_find
      (sched_event (sched_event st t1 pr1 ident false 0).2 t2 pr2 ident
        false 0).2.schedlist
      (sched_event (sched_event st t1 pr1 ident false 0).2 t2 pr2 ident
        false 0).2.sched_count ident = some pos := by
    rw [f2, sched_find_congr
      (sched_event st t1 pr1 ident false 0).2.schedlist _
      (sched_event st t1 pr1 ident false 0).2.sched_count ident
      (fun i _ => f3 i)]
    exact hfind1
  refine ⟨hact1, e5, e6, ?_, ?_, hact2, f5, f6, ?_, ?_⟩
  · rw [sched_check_some _ tq prq ident pos hfind1]
    exact sched_check0_inactive _ tq prq pos hact1
  · rw [sched_pin_level_some _ ident pos lv hfind1,
      sched_pin_test0_inactive _ pos lv false hact1]
  · rw [sched_check_some _ tq prq ident pos hfind2]
    exact sched_check0_inactive _ tq prq pos hact2
  · rw [sched_pin_level_some _ ident pos lv hfind2,
      sched_pin_test0_inactive _ pos lv false hact2]

/-- Witness for C2 amended: two successive cancels of the concrete armed
pin-watch id 3; after each, the slot is inactive with zero counters and
poll and pin_level return false. -/
theorem C2_cancel_amended_witness :
    ((sched_cancel stPin3 10 (fun _ => true) 3).2.schedlist 0).active =
      false ∧
    ((sched_cancel stPin3 10 (fun _ => true) 3).2.schedlist
      0).event_ct_up = 0 ∧
    (sched_pin_level (sched_cancel stPin3 10 (fun _ => true) 3).2 3
      true).1 = false ∧
    ((sched_cancel (sched_cancel stPin3 10 (fun _ => true) 3).2 20
        (fun _ => false) 3).2.schedlist 0).active = false ∧
    sched_check (sched_cancel (sched_cancel stPin3 10 (fun _ => true) 3).2
        20 (fun _ => false) 3).2 900 (fun _ => true) 3 =
      (false, (sched_cancel (sched_cancel stPin3 10 (fun _ => true) 3).2 20
        (fun _ => false) 3).2) := by
  obtain ⟨w1, w2, w3, w4, w5, w6, w7, w8, w9, w10⟩ :=
    C2_cancel_amended stPin3 10 20 900 (fun _ => true) (fun _ => false)
      (fun _ => true) 3 0 true (by decide)
  exact ⟨w1, w2, w5, w6, w9⟩

end GlfScheduler
